import Mathlib

/-!
Shallow embedding of `src/app.py` (a Streamlit translation app) and proofs
about its credential resolution (`get_creds`), client construction
(`get_translator_client`) and translation facade (`translate_text`).

Modelling conventions:
* JSON parsing (`json.loads` / `json.load`) is an external library; it is
  modelled as an oracle `parse : String → Option Json` carried in the
  environment.  A credential payload is a JSON object (string-keyed map),
  matching the data model of the spec and the payloads the app accepts.
* The filesystem is an association list `path → contents`;
  `os.path.exists` is membership, `open(...).read()` is lookup.
* `st.error` appends a message to an error log; `st.stop` sets a `halted`
  flag (in Streamlit it raises, ending the script run).
* `@st.cache_resource` on `get_translator_client` is modelled as an
  explicit cache field in the process state; `@st.cache_resource` on
  `get_creds` is transparent because `get_creds` is a pure function of the
  (fixed) environment.  `@st.cache_data` on `translate_text` is an explicit
  cache keyed by the argument pair `(text, target_language)`.
* The remote service call `translate_client.translate(...)` is an oracle
  `remote : Client → String → String → Except String String`: a raised
  exception is `Except.error` carrying the exception text, success is
  `Except.ok` carrying the translated text.
-/

/-- A parsed JSON credential payload: a mapping of string keys to string
values (the service-account key fields). -/
structure Json where
  fields : List (String × String)
deriving DecidableEq, Repr

/-- Python truthiness of a dict: truthy iff non-empty (`if creds:`). -/
def Json.isTruthy (j : Json) : Bool :=
  !j.fields.isEmpty

/-- The user-facing messages the app can emit via `st.error`, one
constructor per `st.error` site in `src/app.py`. -/
inductive Msg where
  /-- app.py line 48: `except FileNotFoundError` in the env-var branch. -/
  | fileNotFoundEnv (path : String)
  /-- app.py line 51: `except json.JSONDecodeError` in the env-var branch. -/
  | decodeEnv
  /-- app.py line 54: `except Exception` in the env-var branch. -/
  | unexpectedEnv
  /-- app.py line 62: `except json.JSONDecodeError` in the secrets branch. -/
  | decodeSecrets
  /-- app.py line 64: `except Exception` in the secrets branch. -/
  | unexpectedSecrets
  /-- app.py line 67: neither credential source is present. -/
  | noCreds
  /-- app.py line 149: translation client could not be initialized. -/
  | clientUnavailable
  /-- app.py line 159: the remote call raised exception `e`. -/
  | translationFailed (e : String)
deriving DecidableEq, Repr

/-- The external environment of one process: the environment variable
`GOOGLE_APPLICATION_TRANSLATE_CREDENTIALS_JSON`, the secret-store entry
`st.secrets["GOOGLE_CREDS"]`, the filesystem, and the JSON parse oracle. -/
structure Env where
  envVar : Option String
  secrets : Option String
  fs : List (String × String)
  parse : String → Option Json

/-- Is the first list a prefix of the second? (character lists). -/
def listPrefix : List Char → List Char → Bool
  | [], _ => true
  | _ :: _, [] => false
  | a :: as, b :: bs => if a = b then listPrefix as bs else false

/-- Python's `str.endswith`: does `s` end with `suffix`? -/
def strEndsWith (s suffix : String) : Bool :=
  listPrefix suffix.data.reverse s.data.reverse

/-- `os.path.exists`, on the association-list filesystem. -/
def fileExists (fs : List (String × String)) (p : String) : Bool :=
  match fs with
  | [] => false
  | (q, _) :: rest => if q = p then true else fileExists rest p

/-- `open(p).read()`: the contents of file `p`, when present. -/
def readFile (fs : List (String × String)) (p : String) : Option String :=
  match fs with
  | [] => none
  | (q, c) :: rest => if q = p then some c else readFile rest p

/-- The observable outcome of one run of `get_creds`: the returned
`creds_dict`, the `st.error` messages emitted (in order), whether
`st.stop` was reached, whether the secret store was touched, and the trace
of strings handed to the JSON parser. -/
structure CredOutcome where
  creds : Option Json
  errors : List Msg
  halted : Bool
  readSecrets : Bool
  parsedInputs : List String
deriving DecidableEq, Repr

/-- `get_creds` (app.py lines 28-70).  Branches mirror the source:
env var present → treat as path when the file exists and the name ends in
`.json`, else parse the value itself; env var absent → secrets entry when
present (note: its decode failure emits an error but does NOT call
`st.stop`); otherwise the no-credentials error and `st.stop`.
The `FileNotFoundError` handler is reachable only if `open` fails after
`os.path.exists` succeeded, i.e. never in this race-free model. -/
def get_creds (env : Env) : CredOutcome :=
  match env.envVar with
  | some env_value =>
    if fileExists env.fs env_value && strEndsWith env_value ".json" then
      match readFile env.fs env_value with
      | some contents =>
        match env.parse contents with
        | some j =>
          { creds := some j, errors := [], halted := false,
            readSecrets := false, parsedInputs := [contents] }
        | none =>
          { creds := none, errors := [Msg.decodeEnv], halted := true,
            readSecrets := false, parsedInputs := [contents] }
      | none =>
        -- unreachable: `fileExists` just succeeded (the Python
        -- `except FileNotFoundError` needs a filesystem race to fire)
        { creds := none, errors := [Msg.fileNotFoundEnv env_value],
          halted := true, readSecrets := false, parsedInputs := [] }
    else
      match env.parse env_value with
      | some j =>
        { creds := some j, errors := [], halted := false,
          readSecrets := false, parsedInputs := [env_value] }
      | none =>
        { creds := none, errors := [Msg.decodeEnv], halted := true,
          readSecrets := false, parsedInputs := [env_value] }
  | none =>
    match env.secrets with
    | some s =>
      match env.parse s with
      | some j =>
        { creds := some j, errors := [], halted := false,
          readSecrets := true, parsedInputs := [s] }
      | none =>
        -- source has `st.error` here but no `st.stop()`
        { creds := none, errors := [Msg.decodeSecrets], halted := false,
          readSecrets := true, parsedInputs := [s] }
    | none =>
      { creds := none, errors := [Msg.noCreds], halted := true,
        readSecrets := true, parsedInputs := [] }

/-- An authenticated Google Translate client.  `id` distinguishes
instances: each construction yields a fresh `id`, so equal `id`s mean the
identical cached instance. -/
structure Client where
  id : Nat
  creds : Json
deriving DecidableEq, Repr

/-- Process-wide state threaded through `get_translator_client`: the
`st.cache_resource` cell for the client, a fresh-instance counter (the
number of client constructions so far), the error log, and the halt flag. -/
structure ProcState where
  clientCache : Option (Option Client)
  nextId : Nat
  errors : List Msg
  halted : Bool
deriving DecidableEq, Repr

/-- `get_translator_client` (app.py lines 73-84) under `st.cache_resource`:
on a cache hit return the cached instance unchanged; otherwise run
`get_creds`, and if it halted propagate the halt (the client is never
built); if `creds` is truthy construct a fresh client and cache it, else
cache and return the `None` sentinel. -/
def get_translator_client (env : Env) (s : ProcState) :
    Option Client × ProcState :=
  match s.clientCache with
  | some c => (c, s)
  | none =>
    let co := get_creds env
    let s1 : ProcState :=
      { s with errors := s.errors ++ co.errors,
               halted := s.halted || co.halted }
    if co.halted then
      (none, s1)
    else
      match co.creds with
      | some j =>
        if j.isTruthy then
          let c : Client := { id := s.nextId, creds := j }
          (some c, { s1 with clientCache := some (some c),
                             nextId := s.nextId + 1 })
        else
          (none, { s1 with clientCache := some none })
      | none =>
        (none, { s1 with clientCache := some none })

/-- The body of `translate_text` (app.py lines 145-160), without the
`st.cache_data` layer.  Returns (returned string, number of remote calls
made, `st.error` messages emitted).  `if not translate_client` is true
exactly when the client is the `None` sentinel; `if not text` is true
exactly when the text is empty. -/
def translate_text_body (client : Option Client)
    (remote : Client → String → String → Except String String)
    (text target_language : String) : String × Nat × List Msg :=
  match client with
  | none => ("", 0, [Msg.clientUnavailable])
  | some c =>
    if text = "" then
      ("", 0, [])
    else
      match remote c text target_language with
      | Except.ok result => (result, 1, [])
      | Except.error e => ("", 1, [Msg.translationFailed e])

/-- Lookup in the `st.cache_data` cache, keyed by the exact argument pair. -/
def cacheLookup (cache : List ((String × String) × String))
    (key : String × String) : Option String :=
  match cache with
  | [] => none
  | (k, v) :: rest => if k = key then some v else cacheLookup rest key

/-- The session state seen by `translate_text`: the `st.cache_data` cache
and the error log. -/
structure TransState where
  cache : List ((String × String) × String)
  errors : List Msg
deriving DecidableEq, Repr

/-- `translate_text` (app.py lines 144-160) with its `st.cache_data`
layer: a hit on the exact `(text, target_language)` pair returns the
cached string with no body execution; a miss runs the body and caches its
return value.  Returns (result, remote calls made, new state). -/
def translate_text (client : Option Client)
    (remote : Client → String → String → Except String String)
    (st : TransState) (text target_language : String) :
    String × Nat × TransState :=
  match cacheLookup st.cache (text, target_language) with
  | some r => (r, 0, st)
  | none =>
    match translate_text_body client remote text target_language with
    | (r, n, msgs) =>
      (r, n, { cache := ((text, target_language), r) :: st.cache,
               errors := st.errors ++ msgs })

/-- A cache is well formed when every entry for empty source text stores
the empty result — the only value the body ever returns for empty text. -/
def wfCache (cache : List ((String × String) × String)) : Bool :=
  cache.all fun p => !(p.1.1 = "") || (p.2 = "")

/-! ### Characterization lemmas -/

/-- `translate_text` on a cache hit: cached result, no remote call. -/
theorem translate_text_hit (client : Option Client)
    (remote : Client → String → String → Except String String)
    (st : TransState) (text target r : String)
    (h : cacheLookup st.cache (text, target) = some r) :
    translate_text client remote st text target = (r, 0, st) := by
  unfold translate_text
  rw [h]

/-- `translate_text` on a cache miss: runs the body and caches its result. -/
theorem translate_text_miss (client : Option Client)
    (remote : Client → String → String → Except String String)
    (st : TransState) (text target : String)
    (h : cacheLookup st.cache (text, target) = none) :
    translate_text client remote st text target =
      ((translate_text_body client remote text target).1,
       (translate_text_body client remote text target).2.1,
       { cache := ((text, target),
            (translate_text_body client remote text target).1) :: st.cache,
         errors := st.errors
            ++ (translate_text_body client remote text target).2.2 }) := by
  unfold translate_text
  rw [h]

/-- `get_translator_client` on a cache hit returns the cached instance
and leaves the state untouched. -/
theorem gtc_hit (env : Env) (s : ProcState) (c : Option Client)
    (h : s.clientCache = some c) :
    get_translator_client env s = (c, s) := by
  unfold get_translator_client
  rw [h]

/-- `get_translator_client` when `get_creds` halts: the halt propagates,
no client is constructed and nothing is cached. -/
theorem gtc_halted (env : Env) (s : ProcState)
    (h1 : s.clientCache = none) (h2 : (get_creds env).halted = true) :
    get_translator_client env s =
      (none, { s with errors := s.errors ++ (get_creds env).errors,
                      halted := true }) := by
  unfold get_translator_client
  rw [h1]
  simp only [h2, if_true, Bool.or_true]

/-- `get_translator_client` on an uncached call with truthy credentials:
a fresh client is constructed once and cached. -/
theorem gtc_truthy (env : Env) (s : ProcState) (j : Json)
    (h1 : s.clientCache = none) (h2 : (get_creds env).halted = false)
    (h3 : (get_creds env).creds = some j) (h4 : j.isTruthy = true) :
    get_translator_client env s =
      (some { id := s.nextId, creds := j },
       { clientCache := some (some { id := s.nextId, creds := j }),
         nextId := s.nextId + 1,
         errors := s.errors ++ (get_creds env).errors,
         halted := s.halted }) := by
  unfold get_translator_client
  rw [h1]
  simp only [h2, h3, h4, Bool.or_false, if_false, if_true, Bool.false_eq_true]

/-- `get_translator_client` on an uncached call with no payload: the
`None` sentinel is returned and cached; no client is constructed. -/
theorem gtc_sentinel (env : Env) (s : ProcState)
    (h1 : s.clientCache = none) (h2 : (get_creds env).halted = false)
    (h3 : (get_creds env).creds = none) :
    get_translator_client env s =
      (none, { clientCache := some none,
               nextId := s.nextId,
               errors := s.errors ++ (get_creds env).errors,
               halted := s.halted }) := by
  unfold get_translator_client
  rw [h1]
  simp only [h2, h3, Bool.or_false, if_false, Bool.false_eq_true]

/-- `get_translator_client` on an uncached call with a falsy (empty)
payload: the safeguard `else` returns the `None` sentinel. -/
theorem gtc_falsy (env : Env) (s : ProcState) (j : Json)
    (h1 : s.clientCache = none) (h2 : (get_creds env).halted = false)
    (h3 : (get_creds env).creds = some j) (h4 : j.isTruthy = false) :
    get_translator_client env s =
      (none, { clientCache := some none,
               nextId := s.nextId,
               errors := s.errors ++ (get_creds env).errors,
               halted := s.halted }) := by
  unfold get_translator_client
  rw [h1]
  simp only [h2, h3, h4, Bool.or_false, if_false, Bool.false_eq_true]

/-! ### Concrete fixtures for counterexamples and witnesses -/

/-- A well-formed service-account payload (non-empty, hence truthy). -/
def jsonA : Json :=
  { fields := [("client_email", "svc@example.com"), ("private_key", "KEY-A")] }

/-- A second payload, the parse of the literal string `sa.json`. -/
def jsonSelf : Json :=
  { fields := [("self", "parsed-value")] }

/-- A concrete JSON-parse oracle: `VALID-A` parses to `jsonA`, the string
`sa.json` parses to `jsonSelf`, everything else is a decode failure. -/
def parseStub : String → Option Json := fun s =>
  if s = "VALID-A" then some jsonA
  else if s = "sa.json" then some jsonSelf
  else none

/-- Env var holds raw parseable JSON; no secrets, empty filesystem. -/
def envGood : Env :=
  { envVar := some "VALID-A", secrets := none, fs := [], parse := parseStub }

/-- Env var unset; the secret-store entry holds unparseable text. -/
def envSecretsBad : Env :=
  { envVar := none, secrets := some "BAD", fs := [], parse := parseStub }

/-- Env var holds a path-like value (`/tmp/absent.json`) naming a file
that does not exist; the value is not valid JSON either. -/
def envMissingFile : Env :=
  { envVar := some "/tmp/absent.json", secrets := none, fs := [],
    parse := parseStub }

/-- Env var names an existing `.json` file whose contents are malformed,
while the value itself would parse as JSON under the oracle. -/
def envFileBad : Env :=
  { envVar := some "sa.json", secrets := none, fs := [("sa.json", "BAD")],
    parse := parseStub }

/-- Neither credential source is present. -/
def envNone : Env :=
  { envVar := none, secrets := none, fs := [], parse := parseStub }

/-- The fresh process state at interpreter start. -/
def procState0 : ProcState :=
  { clientCache := none, nextId := 0, errors := [], halted := false }

/-- The fresh translation-session state. -/
def transState0 : TransState :=
  { cache := [], errors := [] }

/-- A concrete remote-service stub: translates `Hello` to Spanish as
`Hola` and raises on everything else. -/
def remoteStub : Client → String → String → Except String String :=
  fun _ text target =>
    if text = "Hello" && target = "es" then Except.ok "Hola"
    else Except.error "boom"

/-! ### Helper lemmas -/

/-- `os.path.exists` agrees with readability of the file. -/
theorem fileExists_eq_isSome (fs : List (String × String)) (p : String) :
    fileExists fs p = (readFile fs p).isSome := by
  induction fs with
  | nil => rfl
  | cons hd tl ih =>
    cases hd with
    | mk q c =>
      by_cases h : q = p
      · simp [fileExists, readFile, h]
      · simp [fileExists, readFile, h, ih]

/-- A well-formed cache stores only the empty result under empty text. -/
theorem wfCache_lookup_empty (cache : List ((String × String) × String))
    (target r : String) (hwf : wfCache cache = true)
    (h : cacheLookup cache ("", target) = some r) : r = "" := by
  induction cache with
  | nil => simp [cacheLookup] at h
  | cons hd tl ih =>
    rw [wfCache, List.all_cons, Bool.and_eq_true] at hwf
    rw [cacheLookup] at h
    by_cases hk : hd.1 = ("", target)
    · rw [if_pos hk] at h
      cases h
      have h1 : hd.1.1 = "" := by rw [hk]
      simpa [h1] using hwf.1
    · rw [if_neg hk] at h
      exact ih hwf.2 h

/-- The body of `translate_text` makes at most one remote call. -/
theorem translate_text_body_calls_le_one (client : Option Client)
    (remote : Client → String → String → Except String String)
    (text target : String) :
    (translate_text_body client remote text target).2.1 ≤ 1 := by
  unfold translate_text_body
  cases client with
  | none => simp
  | some c =>
    by_cases h : text = ""
    · simp [h]
    · cases hr : remote c text target <;> simp [h, hr]

/-- Running `translate_text` preserves cache well-formedness. -/
theorem wfCache_translate_text (client : Option Client)
    (remote : Client → String → String → Except String String)
    (st : TransState) (text target : String)
    (hwf : wfCache st.cache = true) :
    wfCache (translate_text client remote st text target).2.2.cache = true := by
  unfold translate_text
  cases hm : cacheLookup st.cache (text, target) with
  | some r => simpa using hwf
  | none =>
    cases hb : translate_text_body client remote text target with
    | mk r rest =>
      rw [wfCache] at hwf ⊢
      rw [List.all_cons, Bool.and_eq_true]
      refine And.intro ?_ hwf
      by_cases ht : text = ""
      · subst ht
        unfold translate_text_body at hb
        cases client with
        | none => cases hb; simp
        | some c => simp at hb; cases hb.1; simp
      · simp [ht]

/-- Env var names an existing `.json` file holding parseable JSON. -/
def envFileGood : Env :=
  { envVar := some "sa.json", secrets := none,
    fs := [("sa.json", "VALID-A")], parse := parseStub }

/-- Every halting outcome of `get_creds` is preceded by an error message. -/
theorem get_creds_halted_errors (env : Env) :
    (get_creds env).halted = true → (get_creds env).errors ≠ [] := by
  unfold get_creds
  repeat' split
  all_goals simp

/-! ### Claims -/

/-- C1, counterexample: with the environment variable unset and the
secret-store entry holding unparseable text, `get_creds` displays the
decode message but does NOT halt (there is no `st.stop()` in that
branch), refuting the claim that a JSON parse failure in the secret-store
branch halts the session. -/
theorem C1_counterexample :
    (get_creds envSecretsBad).errors = [Msg.decodeSecrets] ∧
    (get_creds envSecretsBad).halted = false := by
  decide

/-- C1, amended: whenever `get_creds` halts it has displayed a message and
no client is constructed afterwards; any credential failure in the
environment-variable branch halts, and so does absence of both sources;
but a JSON parse failure in the secret-store branch only displays a
message without halting — `get_creds` returns no payload and the client
factory yields the `None` sentinel without constructing a client. -/
theorem C1_halt_behaviour (env : Env) (s : ProcState)
    (hs : s.clientCache = none) :
    ((get_creds env).halted = true →
      (get_creds env).errors ≠ [] ∧
      (get_translator_client env s).1 = none ∧
      (get_translator_client env s).2.nextId = s.nextId ∧
      (get_translator_client env s).2.clientCache = none) ∧
    (∀ v, env.envVar = some v → (get_creds env).creds = none →
      (get_creds env).halted = true) ∧
    (env.envVar = none → env.secrets = none →
      (get_creds env).halted = true ∧
      (get_creds env).errors = [Msg.noCreds]) ∧
    (∀ sec, env.envVar = none → env.secrets = some sec →
      env.parse sec = none →
      (get_creds env).halted = false ∧
      (get_creds env).errors = [Msg.decodeSecrets] ∧
      (get_translator_client env s).1 = none ∧
      (get_translator_client env s).2.nextId = s.nextId) := by
  refine ⟨?_, ?_, ?_, ?_⟩
  · intro hh
    rw [gtc_halted env s hs hh]
    exact ⟨get_creds_halted_errors env hh, rfl, rfl, hs⟩
  · intro v hv
    unfold get_creds
    rw [hv]
    repeat' split
    all_goals simp_all
  · intro h1 h2
    unfold get_creds
    rw [h1, h2]
    exact ⟨rfl, rfl⟩
  · intro sec h1 h2 hp
    have hgc : get_creds env =
        { creds := none, errors := [Msg.decodeSecrets], halted := false,
          readSecrets := true, parsedInputs := [sec] } := by
      unfold get_creds
      rw [h1, h2]
      dsimp only
      rw [hp]
    have hsent := gtc_sentinel env s hs (by rw [hgc]) (by rw [hgc])
    rw [hgc, hsent]
    exact ⟨rfl, rfl, rfl, rfl⟩

/-- C1 witness: the amended behaviour at the concrete bad-secrets
environment and the fresh process state. -/
theorem C1_halt_behaviour_witness :
    procState0.clientCache = none ∧
    (get_creds envSecretsBad).halted = false ∧
    (get_creds envSecretsBad).errors = [Msg.decodeSecrets] ∧
    (get_translator_client envSecretsBad procState0).1 = none ∧
    (get_translator_client envSecretsBad procState0).2.nextId
      = procState0.nextId := by
  have h := (C1_halt_behaviour envSecretsBad procState0 rfl).2.2.2
    "BAD" rfl rfl (by decide)
  exact ⟨rfl, h.1, h.2.1, h.2.2.1, h.2.2.2⟩

/-- C2, counterexample: for the env-var value `/tmp/absent.json`, a
path-like name of a file that does not exist, `get_creds` emits the
JSON-decode message, not the missing-file message (the existence check
routes such values to raw-JSON parsing, so the dedicated
`FileNotFoundError` message is unreachable). -/
theorem C2_counterexample :
    (get_creds envMissingFile).errors = [Msg.decodeEnv] ∧
    (get_creds envMissingFile).halted = true ∧
    Msg.fileNotFoundEnv "/tmp/absent.json" ∉ (get_creds envMissingFile).errors := by
  decide

/-- C2, amended: malformed JSON and absence of both sources each produce
their own distinct message before halting, but a path-like value naming a
missing file is treated as a raw JSON string and produces the JSON-decode
message; no missing-file message is ever emitted for it. -/
theorem C2_distinct_messages (env : Env) :
    (∀ v, env.envVar = some v → fileExists env.fs v = false →
      env.parse v = none →
      (get_creds env).errors = [Msg.decodeEnv] ∧
      (get_creds env).halted = true ∧
      ∀ p, Msg.fileNotFoundEnv p ∉ (get_creds env).errors) ∧
    (env.envVar = none → env.secrets = none →
      (get_creds env).errors = [Msg.noCreds] ∧
      (get_creds env).halted = true) ∧
    (∀ sec, env.envVar = none → env.secrets = some sec →
      env.parse sec = none →
      (get_creds env).errors = [Msg.decodeSecrets]) ∧
    (Msg.decodeEnv ≠ Msg.noCreds ∧ Msg.decodeEnv ≠ Msg.decodeSecrets ∧
      Msg.decodeSecrets ≠ Msg.noCreds) := by
  refine ⟨?_, ?_, ?_, by decide⟩
  · intro v hv hex hp
    have hgc : get_creds env =
        { creds := none, errors := [Msg.decodeEnv], halted := true,
          readSecrets := false, parsedInputs := [v] } := by
      unfold get_creds
      rw [hv]
      simp only [hex, Bool.false_and, Bool.false_eq_true, if_false, hp]
    rw [hgc]
    exact ⟨rfl, rfl, by intro p; simp⟩
  · intro h1 h2
    unfold get_creds
    rw [h1, h2]
    exact ⟨rfl, rfl⟩
  · intro sec h1 h2 hp
    unfold get_creds
    rw [h1, h2]
    dsimp only
    rw [hp]

/-- C2 witness: the amended behaviour at the concrete missing-file
environment. -/
theorem C2_distinct_messages_witness :
    envMissingFile.envVar = some "/tmp/absent.json" ∧
    fileExists envMissingFile.fs "/tmp/absent.json" = false ∧
    (get_creds envMissingFile).errors = [Msg.decodeEnv] ∧
    (get_creds envMissingFile).halted = true := by
  have h := (C2_distinct_messages envMissingFile).1
    "/tmp/absent.json" rfl rfl (by decide)
  exact ⟨rfl, rfl, h.1, h.2.1⟩

/-- C3: exactly one credential source is consulted per resolution
attempt; when the environment variable is set the secret store is never
read, and the secret store is read only when the variable is absent. -/
theorem C3_single_source (env : Env) :
    (∀ v, env.envVar = some v → (get_creds env).readSecrets = false) ∧
    ((get_creds env).readSecrets = true → env.envVar = none) := by
  have h1 : ∀ v, env.envVar = some v →
      (get_creds env).readSecrets = false := by
    intro v hv
    unfold get_creds
    rw [hv]
    repeat' split
    all_goals simp_all
  refine ⟨h1, ?_⟩
  intro hr
  cases hv : env.envVar with
  | none => rfl
  | some v =>
    rw [h1 v hv] at hr
    exact Bool.noConfusion hr

/-- C3 witness: with the environment variable set, the secret store is
untouched. -/
theorem C3_single_source_witness :
    envGood.envVar = some "VALID-A" ∧
    (get_creds envGood).readSecrets = false :=
  ⟨rfl, (C3_single_source envGood).1 "VALID-A" rfl⟩

/-- C4: when credential resolution returns no payload (without halting),
`get_translator_client` returns the `None` sentinel rather than raising,
and `translate_text` with the client unavailable reports the
client-unavailable error and returns the empty string for every input. -/
theorem C4_sentinel_degradation (env : Env) (s : ProcState)
    (hs : s.clientCache = none)
    (hh : (get_creds env).halted = false)
    (hc : (get_creds env).creds = none) :
    (get_translator_client env s).1 = none ∧
    ∀ remote text target,
      translate_text_body none remote text target
        = ("", 0, [Msg.clientUnavailable]) := by
  refine ⟨?_, fun remote text target => rfl⟩
  rw [gtc_sentinel env s hs hh hc]

/-- C4 witness: the degradation path at the concrete bad-secrets
environment. -/
theorem C4_sentinel_degradation_witness :
    (get_creds envSecretsBad).halted = false ∧
    (get_creds envSecretsBad).creds = none ∧
    (get_translator_client envSecretsBad procState0).1 = none ∧
    translate_text_body none remoteStub "Hello" "es"
      = ("", 0, [Msg.clientUnavailable]) := by
  have h := C4_sentinel_degradation envSecretsBad procState0 rfl
    (by decide) (by decide)
  exact ⟨by decide, by decide, h.1, h.2 remoteStub "Hello" "es"⟩

/-- C5: for every target language, translating empty text yields the
empty string and makes no remote call (for any well-formed cache state
and any client). -/
theorem C5_empty_text_no_call (client : Option Client)
    (remote : Client → String → String → Except String String)
    (st : TransState) (target : String)
    (hwf : wfCache st.cache = true) :
    (translate_text client remote st "" target).1 = "" ∧
    (translate_text client remote st "" target).2.1 = 0 := by
  cases hm : cacheLookup st.cache ("", target) with
  | some r =>
    have hr := wfCache_lookup_empty st.cache target r hwf hm
    rw [translate_text_hit client remote st "" target r hm, hr]
    exact ⟨rfl, rfl⟩
  | none =>
    rw [translate_text_miss client remote st "" target hm]
    cases client with
    | none => exact ⟨rfl, rfl⟩
    | some c => exact ⟨rfl, rfl⟩

/-- C5 witness: empty text at the fresh session with an available
client. -/
theorem C5_empty_text_no_call_witness :
    wfCache transState0.cache = true ∧
    (translate_text (some { id := 0, creds := jsonA }) remoteStub
        transState0 "" "es").1 = "" ∧
    (translate_text (some { id := 0, creds := jsonA }) remoteStub
        transState0 "" "es").2.1 = 0 := by
  have h := C5_empty_text_no_call (some { id := 0, creds := jsonA })
    remoteStub transState0 "es" rfl
  exact ⟨rfl, h.1, h.2⟩

/-- C6: for non-empty text with an available client, the facade body
issues exactly one outbound call; on a remote exception it reports one
descriptive message and returns the empty string, and the failure is
per-call — a subsequent different request (uncached, non-empty,
succeeding remotely) still returns its translation. -/
theorem C6_one_call_per_request (client : Client)
    (remote : Client → String → String → Except String String)
    (text target : String) (ht : text ≠ "") :
    (translate_text_body (some client) remote text target).2.1 = 1 ∧
    (∀ e, remote client text target = Except.error e →
      translate_text_body (some client) remote text target
        = ("", 1, [Msg.translationFailed e])) ∧
    (∀ st text2 target2 t2,
      cacheLookup st.cache (text2, target2) = none →
      (text2, target2) ≠ (text, target) →
      text2 ≠ "" →
      remote client text2 target2 = Except.ok t2 →
      (translate_text (some client) remote
          (translate_text (some client) remote st text target).2.2
          text2 target2).1 = t2) := by
  refine ⟨?_, ?_, ?_⟩
  · unfold translate_text_body
    dsimp only
    rw [if_neg ht]
    cases hr : remote client text target <;> rfl
  · intro e he
    unfold translate_text_body
    dsimp only
    rw [if_neg ht, he]
  · intro st text2 target2 t2 hm2 hne ht2 hok
    have hbody2 : translate_text_body (some client) remote text2 target2
        = (t2, 1, []) := by
      unfold translate_text_body
      dsimp only
      rw [if_neg ht2, hok]
    cases hm : cacheLookup st.cache (text, target) with
    | some r =>
      rw [translate_text_hit (some client) remote st text target r hm]
      dsimp only
      rw [translate_text_miss (some client) remote st text2 target2 hm2,
        hbody2]
    | none =>
      rw [translate_text_miss (some client) remote st text target hm]
      dsimp only
      have hlook : cacheLookup
          (((text, target),
             (translate_text_body (some client) remote text target).1)
            :: st.cache) (text2, target2) = none := by
        rw [cacheLookup, if_neg (Ne.symm hne)]
        exact hm2
      rw [translate_text_miss (some client) remote _ text2 target2 hlook,
        hbody2]

/-- C6 witness: a failing request (`Hi` → French raises) returns the
empty string with one recorded failure message, after which
`Hello` → Spanish still succeeds with `Hola`. -/
theorem C6_one_call_per_request_witness :
    ("Hi" : String) ≠ "" ∧
    (translate_text_body (some { id := 0, creds := jsonA }) remoteStub
        "Hi" "fr").2.1 = 1 ∧
    translate_text_body (some { id := 0, creds := jsonA }) remoteStub
        "Hi" "fr" = ("", 1, [Msg.translationFailed "boom"]) ∧
    (translate_text (some { id := 0, creds := jsonA }) remoteStub
        (translate_text (some { id := 0, creds := jsonA }) remoteStub
          transState0 "Hi" "fr").2.2
        "Hello" "es").1 = "Hola" := by
  have h := C6_one_call_per_request { id := 0, creds := jsonA }
    remoteStub "Hi" "fr" (by decide)
  exact ⟨by decide, h.1, h.2.1 "boom" rfl,
    h.2.2 transState0 "Hello" "es" "Hola" rfl (by decide) (by decide) rfl⟩

/-- C7: `translate_text` results are memoized on the exact
`(text, target-language)` pair: from any state, a repeated identical call
makes no remote call and returns exactly the first call's result, and the
two calls together contact the remote service at most once. -/
theorem C7_memoized_pair (client : Option Client)
    (remote : Client → String → String → Except String String)
    (st : TransState) (text target : String) :
    (translate_text client remote
        (translate_text client remote st text target).2.2 text target).1
      = (translate_text client remote st text target).1 ∧
    (translate_text client remote
        (translate_text client remote st text target).2.2 text target).2.1
      = 0 ∧
    (translate_text client remote st text target).2.1 ≤ 1 := by
  cases hm : cacheLookup st.cache (text, target) with
  | some r =>
    rw [translate_text_hit client remote st text target r hm]
    dsimp only
    rw [translate_text_hit client remote st text target r hm]
    exact ⟨rfl, rfl, Nat.zero_le 1⟩
  | none =>
    rw [translate_text_miss client remote st text target hm]
    dsimp only
    have hlook : cacheLookup
        (((text, target),
           (translate_text_body client remote text target).1) :: st.cache)
        (text, target)
        = some (translate_text_body client remote text target).1 := by
      rw [cacheLookup, if_pos rfl]
    rw [translate_text_hit client remote _ text target _ hlook]
    exact ⟨rfl, rfl, translate_text_body_calls_le_one client remote text target⟩

/-- C8, counterexample: the env value `sa.json` names an existing `.json`
file with malformed contents while the value itself parses under the
oracle; the claim predicts the value itself is parsed and that parse
returned, but the code parses the file contents (`BAD`), halts with the
decode error, and returns nothing. -/
theorem C8_counterexample :
    envFileBad.parse "sa.json" = some jsonSelf ∧
    (get_creds envFileBad).creds = none ∧
    (get_creds envFileBad).halted = true ∧
    (get_creds envFileBad).parsedInputs = ["BAD"] ∧
    (get_creds envFileBad).errors = [Msg.decodeEnv] := by
  decide

/-- C8, amended: when the env value names an existing file ending in
`.json`, the file's contents are parsed — returned when valid, a fatal
decode error when not (the value itself is never parsed in that branch);
only when the value does not name an existing `.json` file is the value
itself parsed and its parse returned on success. -/
theorem C8_env_routes (env : Env) (v : String) (hv : env.envVar = some v) :
    (∀ contents j, readFile env.fs v = some contents →
      strEndsWith v ".json" = true → env.parse contents = some j →
      (get_creds env).creds = some j ∧ (get_creds env).halted = false ∧
      (get_creds env).parsedInputs = [contents]) ∧
    (∀ contents, readFile env.fs v = some contents →
      strEndsWith v ".json" = true → env.parse contents = none →
      (get_creds env).creds = none ∧ (get_creds env).halted = true ∧
      (get_creds env).errors = [Msg.decodeEnv] ∧
      (get_creds env).parsedInputs = [contents]) ∧
    (∀ j, (fileExists env.fs v && strEndsWith v ".json") = false →
      env.parse v = some j →
      (get_creds env).creds = some j ∧ (get_creds env).halted = false ∧
      (get_creds env).parsedInputs = [v]) := by
  refine ⟨?_, ?_, ?_⟩
  · intro contents j hread hend hp
    have hex : fileExists env.fs v = true := by
      rw [fileExists_eq_isSome, hread]
      rfl
    have hgc : get_creds env =
        { creds := some j, errors := [], halted := false,
          readSecrets := false, parsedInputs := [contents] } := by
      unfold get_creds
      rw [hv]
      simp only [hex, hend, Bool.and_self, if_true]
      rw [hread]
      dsimp only
      rw [hp]
    rw [hgc]
    exact ⟨rfl, rfl, rfl⟩
  · intro contents hread hend hp
    have hex : fileExists env.fs v = true := by
      rw [fileExists_eq_isSome, hread]
      rfl
    have hgc : get_creds env =
        { creds := none, errors := [Msg.decodeEnv], halted := true,
          readSecrets := false, parsedInputs := [contents] } := by
      unfold get_creds
      rw [hv]
      simp only [hex, hend, Bool.and_self, if_true]
      rw [hread]
      dsimp only
      rw [hp]
    rw [hgc]
    exact ⟨rfl, rfl, rfl, rfl⟩
  · intro j hcond hp
    have hgc : get_creds env =
        { creds := some j, errors := [], halted := false,
          readSecrets := false, parsedInputs := [v] } := by
      unfold get_creds
      rw [hv]
      simp only [hcond, Bool.false_eq_true, if_false]
      rw [hp]
    rw [hgc]
    exact ⟨rfl, rfl, rfl⟩

/-- C8 witness: the file route at a concrete environment whose `.json`
file holds valid JSON — the resolved payload equals the file's parsed
contents. -/
theorem C8_env_routes_witness :
    envFileGood.envVar = some "sa.json" ∧
    readFile envFileGood.fs "sa.json" = some "VALID-A" ∧
    (get_creds envFileGood).creds = some jsonA ∧
    (get_creds envFileGood).parsedInputs = ["VALID-A"] := by
  have h := (C8_env_routes envFileGood "sa.json" rfl).1 "VALID-A" jsonA
    rfl (by decide) (by decide)
  exact ⟨rfl, rfl, h.1, h.2.2⟩

/-- C9: client construction is idempotent — after one call to
`get_translator_client` (that did not halt), a second call returns the
identical cached instance-and-state pair, and at most one client
construction happened. -/
theorem C9_client_idempotent (env : Env) (s : ProcState)
    (hh : (get_translator_client env s).2.halted = false) :
    get_translator_client env (get_translator_client env s).2
      = ((get_translator_client env s).1,
         (get_translator_client env s).2) ∧
    (get_translator_client env s).2.nextId ≤ s.nextId + 1 := by
  cases hc : s.clientCache with
  | some c =>
    rw [gtc_hit env s c hc]
    exact ⟨gtc_hit env s c hc, Nat.le_succ s.nextId⟩
  | none =>
    cases hgh : (get_creds env).halted with
    | true =>
      exfalso
      rw [gtc_halted env s hc hgh] at hh
      exact Bool.noConfusion hh
    | false =>
      cases hcr : (get_creds env).creds with
      | some j =>
        cases hj : j.isTruthy with
        | true =>
          rw [gtc_truthy env s j hc hgh hcr hj]
          dsimp only
          exact ⟨gtc_hit env _ _ rfl, Nat.le_refl _⟩
        | false =>
          rw [gtc_falsy env s j hc hgh hcr hj]
          dsimp only
          exact ⟨gtc_hit env _ _ rfl, Nat.le_succ _⟩
      | none =>
        rw [gtc_sentinel env s hc hgh hcr]
        dsimp only
        exact ⟨gtc_hit env _ _ rfl, Nat.le_succ _⟩

/-- C9 witness: two consecutive client requests at the concrete
good-credentials environment return the identical cached instance. -/
theorem C9_client_idempotent_witness :
    (get_translator_client envGood procState0).2.halted = false ∧
    get_translator_client envGood (get_translator_client envGood procState0).2
      = ((get_translator_client envGood procState0).1,
         (get_translator_client envGood procState0).2) := by
  have h := C9_client_idempotent envGood procState0 (by decide)
  exact ⟨by decide, h.1⟩

/-- C10: in `translate_text` the client-availability check precedes the
empty-text check — with the client unavailable, every input (the empty
text included) yields the client-unavailable message, an empty result and
no remote call, whereas with a client available the empty text yields an
empty result silently. -/
theorem C10_unavailable_before_empty
    (remote : Client → String → String → Except String String)
    (target : String) :
    (∀ text, translate_text_body none remote text target
        = ("", 0, [Msg.clientUnavailable])) ∧
    (∀ c : Client, translate_text_body (some c) remote "" target
        = ("", 0, [])) := by
  refine ⟨fun text => rfl, fun c => ?_⟩
  unfold translate_text_body
  dsimp only
  rw [if_pos rfl]
